import Mathlib

/-!
Shallow embedding of the delegation-oracle rules/scoring engine.

Rust `f64` values are modelled as `ℚ`: the engine only compares, adds,
subtracts and divides metric values, and every claim under study is about
control flow over those comparisons, not about rounding.  Rust's
`BTreeMap` is modelled as an association list with insert-overwrites
semantics, `DateTime<Utc>` as an integer timestamp supplied by the
caller, and the display-only `format!` renderings of floats as a total
function on `ℚ` (no claim inspects those strings).
-/

/-- `ProgramId` from src/criteria/schema.rs. -/
inductive ProgramId
  | Sfdp
  | Marinade
  | JPool
  | BlazeStake
  | Jito
  | Sanctum
deriving DecidableEq

/-- `MetricKey` from src/criteria/schema.rs. -/
inductive MetricKey
  | Commission
  | ActivatedStake
  | SkipRate
  | VoteCredits
  | UptimePercent
  | SolanaVersion
  | DatacenterConcentration
  | SuperminorityStatus
  | MevCommission
  | StakeConcentration
  | InfrastructureDiversity
  | Custom (name : String)
deriving DecidableEq

/-- `MetricValue` from src/criteria/schema.rs. -/
inductive MetricValue
  | Numeric (v : ℚ)
  | Text (s : String)
  | Bool (b : Bool)
deriving DecidableEq

/-- `Constraint` from src/criteria/schema.rs. -/
inductive Constraint
  | Min (v : ℚ)
  | Max (v : ℚ)
  | Range (min max : ℚ)
  | Equals (s : String)
  | OneOf (values : List String)
  | Boolean (b : Bool)
  | Custom (s : String)
deriving DecidableEq

/-- `Criterion` from src/criteria/schema.rs. -/
structure Criterion where
  name : String
  metric : MetricKey
  constraint : Constraint
  weight : Option ℚ
  description : String
deriving DecidableEq

/-- `CriteriaSet` from src/criteria/schema.rs (`fetched_at` as an integer
timestamp; `raw_hash` is the already-computed content hash string). -/
structure CriteriaSet where
  program : ProgramId
  fetched_at : ℤ
  source_url : String
  criteria : List Criterion
  raw_hash : String
deriving DecidableEq

/-- `EffortLevel` from src/eligibility/mod.rs; declaration order is the
derived `Ord` order `Trivial < Moderate < Hard < Impossible`. -/
inductive EffortLevel
  | Trivial
  | Moderate
  | Hard
  | Impossible
deriving DecidableEq

/-- Position of an `EffortLevel` in its derived `Ord` order. -/
def EffortLevel.rank : EffortLevel → ℕ
  | .Trivial => 0
  | .Moderate => 1
  | .Hard => 2
  | .Impossible => 3

/-- `EffortLevel::score` from src/eligibility/mod.rs. -/
def EffortLevel.score : EffortLevel → ℚ
  | .Trivial => 1
  | .Moderate => 2
  | .Hard => 4
  | .Impossible => 1000

/-- `GapDetail` from src/eligibility/mod.rs. -/
structure GapDetail where
  metric_key : MetricKey
  current_value : ℚ
  required_value : ℚ
  delta : ℚ
  effort_estimate : EffortLevel
deriving DecidableEq

/-- `CriterionResult` from src/eligibility/mod.rs. -/
structure CriterionResult where
  criterion_name : String
  metric_key : MetricKey
  your_value : MetricValue
  required : Constraint
  passed : Bool
  gap : Option GapDetail
deriving DecidableEq

/-- `EligibilityResult` from src/eligibility/mod.rs. -/
structure EligibilityResult where
  program : ProgramId
  eligible : Bool
  score : Option ℚ
  criterion_results : List CriterionResult
  estimated_delegation_sol : Option ℚ
deriving DecidableEq

/-- `EligibilityResult::passed_count` from src/eligibility/mod.rs. -/
def EligibilityResult.passed_count (r : EligibilityResult) : ℕ :=
  r.criterion_results.countP (·.passed)

/-- `EligibilityResult::failed_count` from src/eligibility/mod.rs
(`saturating_sub` is `ℕ` subtraction). -/
def EligibilityResult.failed_count (r : EligibilityResult) : ℕ :=
  r.criterion_results.length - r.passed_count

/-- `EligibilityResult::marginal_count` from src/eligibility/mod.rs. -/
def EligibilityResult.marginal_count (r : EligibilityResult) (epsilon_ratio : ℚ) : ℕ :=
  ((r.criterion_results.filterMap (·.gap)).filter fun gap =>
    if gap.required_value = 0 then false
    else decide (|gap.delta| / |gap.required_value| ≤ epsilon_ratio)).length

/-- Association-list model of `BTreeMap<String, f64>` lookup. -/
def mapLookup : List (String × ℚ) → String → Option ℚ
  | [], _ => none
  | (k, v) :: rest, n => if k = n then some v else mapLookup rest n

/-- Association-list model of `BTreeMap<String, f64>` insert
(overwrites an existing binding for the key). -/
def mapInsert : List (String × ℚ) → String → ℚ → List (String × ℚ)
  | [], n, v => [(n, v)]
  | (k, w) :: rest, n, v =>
    if k = n then (n, v) :: rest else (k, w) :: mapInsert rest n v

/-- `ValidatorMetrics` from src/metrics/mod.rs. -/
structure ValidatorMetrics where
  vote_pubkey : String
  commission : ℚ
  activated_stake : ℚ
  skip_rate : ℚ
  vote_credits : ℚ
  uptime_percent : ℚ
  solana_version : String
  datacenter_concentration : ℚ
  superminority_status : Bool
  mev_commission : ℚ
  stake_concentration : ℚ
  infrastructure_diversity : ℚ
  custom_numeric : List (String × ℚ)
deriving DecidableEq

/-- `ValidatorMetrics::sample` from src/metrics/mod.rs. -/
def sample_metrics (vote_pubkey : String) : ValidatorMetrics where
  vote_pubkey := vote_pubkey
  commission := 5
  activated_stake := 156000
  skip_rate := 32/10
  vote_credits := 985/10
  uptime_percent := 991/10
  solana_version := "1.18.26"
  datacenter_concentration := 56
  superminority_status := false
  mev_commission := 8
  stake_concentration := 18/100
  infrastructure_diversity := 65/100
  custom_numeric := []

/-- `ValidatorMetrics::metric_value` from src/metrics/mod.rs: every branch
produces a value, and the whole is wrapped in `Some`. -/
def ValidatorMetrics.metric_value (m : ValidatorMetrics) (key : MetricKey) :
    Option MetricValue :=
  let value : MetricValue :=
    match key with
    | .Commission => .Numeric m.commission
    | .ActivatedStake => .Numeric m.activated_stake
    | .SkipRate => .Numeric m.skip_rate
    | .VoteCredits => .Numeric m.vote_credits
    | .UptimePercent => .Numeric m.uptime_percent
    | .SolanaVersion => .Text m.solana_version
    | .DatacenterConcentration => .Numeric m.datacenter_concentration
    | .SuperminorityStatus => .Bool m.superminority_status
    | .MevCommission => .Numeric m.mev_commission
    | .StakeConcentration => .Numeric m.stake_concentration
    | .InfrastructureDiversity => .Numeric m.infrastructure_diversity
    | .Custom name => .Numeric ((mapLookup m.custom_numeric name).getD 0)
  some value

/-- `ValidatorMetrics::numeric_metric` from src/metrics/mod.rs. -/
def ValidatorMetrics.numeric_metric (m : ValidatorMetrics) (key : MetricKey) :
    Option ℚ :=
  match m.metric_value key with
  | some (.Numeric v) => some v
  | _ => none

/-- `ValidatorMetrics::apply_numeric_change` from src/metrics/mod.rs,
returning the updated metrics together with the `bool` the Rust method
returns (`false` means the change was rejected and nothing was written).
The Rust parameter is named `to`, which Lean reserves. -/
def ValidatorMetrics.apply_numeric_change (m : ValidatorMetrics) (key : MetricKey)
    (to_value : ℚ) : ValidatorMetrics × Bool :=
  match key with
  | .Commission => ({ m with commission := to_value }, true)
  | .ActivatedStake => ({ m with activated_stake := to_value }, true)
  | .SkipRate => ({ m with skip_rate := to_value }, true)
  | .VoteCredits => ({ m with vote_credits := to_value }, true)
  | .UptimePercent => ({ m with uptime_percent := to_value }, true)
  | .DatacenterConcentration => ({ m with datacenter_concentration := to_value }, true)
  | .MevCommission => ({ m with mev_commission := to_value }, true)
  | .StakeConcentration => ({ m with stake_concentration := to_value }, true)
  | .InfrastructureDiversity => ({ m with infrastructure_diversity := to_value }, true)
  | .Custom name => ({ m with custom_numeric := mapInsert m.custom_numeric name to_value }, true)
  | .SolanaVersion => (m, false)
  | .SuperminorityStatus => (m, false)

/-- `estimate_effort` from src/eligibility/evaluator.rs. -/
def estimate_effort (metric : MetricKey) (delta required : ℚ) : EffortLevel :=
  match metric with
  | .Commission | .MevCommission => .Trivial
  | .SkipRate | .VoteCredits | .UptimePercent =>
    if delta ≤ 1 then .Moderate else .Hard
  | .ActivatedStake =>
    if required ≤ 0 then .Impossible
    else
      let ratio := delta / required
      if ratio ≤ 1/10 then .Moderate
      else if ratio ≤ 35/100 then .Hard
      else .Impossible
  | .DatacenterConcentration | .InfrastructureDiversity | .StakeConcentration => .Hard
  | .SolanaVersion => .Trivial
  | .SuperminorityStatus => .Impossible
  | .Custom _ => .Moderate

/-- The `(passed, gap)` match of `evaluate_criterion`
(src/eligibility/evaluator.rs lines 49-118), factored out of the record
construction. -/
def constraint_check (metric : MetricKey) (your_value : MetricValue)
    (constraint : Constraint) : Bool × Option GapDetail :=
  match your_value, constraint with
  | .Numeric v, .Min required =>
    if v ≥ required then (true, none)
    else
      let delta := required - v
      (false, some { metric_key := metric, current_value := v,
                     required_value := required, delta := delta,
                     effort_estimate := estimate_effort metric delta required })
  | .Numeric v, .Max required =>
    if v ≤ required then (true, none)
    else
      let delta := v - required
      (false, some { metric_key := metric, current_value := v,
                     required_value := required, delta := delta,
                     effort_estimate := estimate_effort metric delta required })
  | .Numeric v, .Range min max =>
    if min ≤ v ∧ v ≤ max then (true, none)
    else if v < min then
      let delta := min - v
      (false, some { metric_key := metric, current_value := v,
                     required_value := min, delta := delta,
                     effort_estimate := estimate_effort metric delta min })
    else
      let delta := v - max
      (false, some { metric_key := metric, current_value := v,
                     required_value := max, delta := delta,
                     effort_estimate := estimate_effort metric delta max })
  | .Text v, .Equals required => (decide (v = required), none)
  | .Text v, .OneOf required => (decide (v ∈ required), none)
  | .Bool v, .Boolean required => (decide (v = required), none)
  | _, .Custom _ => (true, none)
  | _, _ => (false, none)

/-- `evaluate_criterion` from src/eligibility/evaluator.rs. -/
def evaluate_criterion (validator : ValidatorMetrics) (criterion : Criterion) :
    CriterionResult :=
  let your_value :=
    (validator.metric_value criterion.metric).getD (.Text "unknown")
  let pg := constraint_check criterion.metric your_value criterion.constraint
  { criterion_name := criterion.name
    metric_key := criterion.metric
    your_value := your_value
    required := criterion.constraint
    passed := pg.1
    gap := pg.2 }

/-- `criterion.weight.unwrap_or(1.0).max(0.0)` from `evaluate_validator`. -/
def criterion_weight (c : Criterion) : ℚ :=
  max (c.weight.getD 1) 0

/-- `evaluate_validator` from src/eligibility/evaluator.rs.  The Rust loop
accumulates the per-criterion results and the two weight sums; here the
same three quantities are computed by `map`/`sum` over the same list. -/
def evaluate_validator (program : ProgramId) (validator : ValidatorMetrics)
    (criteria_set : CriteriaSet) (estimated_delegation_if_eligible : Option ℚ) :
    EligibilityResult :=
  let criterion_results := criteria_set.criteria.map (evaluate_criterion validator)
  let weighted_total := (criteria_set.criteria.map criterion_weight).sum
  let weighted_pass :=
    (criteria_set.criteria.map fun c =>
      if (evaluate_criterion validator c).passed then criterion_weight c else 0).sum
  let eligible := criterion_results.all (·.passed)
  { program := program
    eligible := eligible
    score := if weighted_total > 0 then some (weighted_pass / weighted_total) else none
    criterion_results := criterion_results
    estimated_delegation_sol :=
      if eligible then estimated_delegation_if_eligible else none }

/-- `ChangeType` from src/criteria/differ.rs. -/
inductive ChangeType
  | Added
  | Removed
  | ThresholdChanged
  | WeightChanged
  | DescriptionChanged
deriving DecidableEq

/-- `CriterionChange` from src/criteria/differ.rs. -/
structure CriterionChange where
  criterion_name : String
  change_type : ChangeType
  old_value : Option String
  new_value : Option String
deriving DecidableEq

/-- `DriftImpact` from src/criteria/differ.rs. -/
inductive DriftImpact
  | NowEligible
  | StillEligible
  | AtRisk
  | NowIneligible
  | NotApplicable
deriving DecidableEq

/-- `CriteriaDrift` from src/criteria/differ.rs (`detected_at` as the
integer timestamp the caller observes as `Utc::now()`). -/
structure CriteriaDrift where
  program : ProgramId
  detected_at : ℤ
  changes : List CriterionChange
  impact_on_you : DriftImpact
deriving DecidableEq

/-- Stand-in for Rust's `Display` rendering of an `f64`.  Only the display
strings of diffs and conflicts use it, and no claim inspects them. -/
def fmtQ (q : ℚ) : String :=
  toString q

/-- Stand-in for the `format!("{v:.4}")` fixed-point rendering used for
weight display values: the weight rounded at 4 decimals. -/
def format_weight_4dp (q : ℚ) : String :=
  toString (round (q * 10000) : ℤ) ++ "e-4"

/-- `format_constraint` from src/criteria/differ.rs, i.e. the `Display`
impl of `Constraint` in src/criteria/schema.rs. -/
def format_constraint : Constraint → String
  | .Min v => ">= " ++ fmtQ v
  | .Max v => "<= " ++ fmtQ v
  | .Range min max => "[" ++ fmtQ min ++ ", " ++ fmtQ max ++ "]"
  | .Equals v => "== " ++ v
  | .OneOf values => "one of " ++ toString values
  | .Boolean b => "== " ++ toString b
  | .Custom v => v

/-- Lookup in the name-keyed `BTreeMap` that `diff_criteria` builds by
inserting each criterion under its name: a later criterion with the same
name overwrites an earlier one, so this returns the last match. -/
def lookupName : List Criterion → String → Option Criterion
  | [], _ => none
  | c :: rest, n =>
    match lookupName rest n with
    | some r => some r
    | none => if c.name = n then some c else none

/-- Sorted-set insertion for the `BTreeSet<String>` of criterion names. -/
def insertName (n : String) : List String → List String
  | [] => [n]
  | m :: rest =>
    if n = m then m :: rest
    else if n < m then n :: m :: rest
    else m :: insertName n rest

/-- The sorted name set `diff_criteria` iterates over: every criterion
name of either set, deduplicated. -/
def sortedNames (old_set new_set : CriteriaSet) : List String :=
  (old_set.criteria.map (·.name) ++ new_set.criteria.map (·.name)).foldl
    (fun acc n => insertName n acc) []

/-- The per-name body of `diff_criteria`'s loop
(src/criteria/differ.rs lines 62-104). -/
def diffName (old_set new_set : CriteriaSet) (name : String) :
    List CriterionChange :=
  match lookupName old_set.criteria name, lookupName new_set.criteria name with
  | none, some new_c =>
    [{ criterion_name := name, change_type := .Added, old_value := none,
       new_value := some (format_constraint new_c.constraint) }]
  | some old_c, none =>
    [{ criterion_name := name, change_type := .Removed,
       old_value := some (format_constraint old_c.constraint), new_value := none }]
  | some old_c, some new_c =>
    (if old_c.constraint ≠ new_c.constraint then
      [{ criterion_name := name, change_type := .ThresholdChanged,
         old_value := some (format_constraint old_c.constraint),
         new_value := some (format_constraint new_c.constraint) }]
     else []) ++
    (if old_c.weight ≠ new_c.weight then
      [{ criterion_name := name, change_type := .WeightChanged,
         old_value := old_c.weight.map format_weight_4dp,
         new_value := new_c.weight.map format_weight_4dp }]
     else []) ++
    (if old_c.description ≠ new_c.description then
      [{ criterion_name := name, change_type := .DescriptionChanged,
         old_value := some old_c.description,
         new_value := some new_c.description }]
     else [])
  | none, none => []

/-- `diff_criteria` from src/criteria/differ.rs. -/
def diff_criteria (old_set new_set : CriteriaSet) : List CriterionChange :=
  ((sortedNames old_set new_set).map (diffName old_set new_set)).flatten

/-- `classify_drift_impact` from src/criteria/differ.rs. -/
def classify_drift_impact (before after : Option EligibilityResult) : DriftImpact :=
  match before, after with
  | some b, some a =>
    match b.eligible, a.eligible with
    | false, true => .NowEligible
    | true, true =>
      if a.failed_count > 0 ∨ a.marginal_count (3/100) > 0 then .AtRisk
      else .StillEligible
    | true, false => .NowIneligible
    | false, false => .NotApplicable
  | _, _ => .NotApplicable

/-- `build_drift_report` from src/criteria/differ.rs (`now` is the
timestamp the Rust code reads from `Utc::now()`). -/
def build_drift_report (old_set new_set : CriteriaSet)
    (before after : Option EligibilityResult) (now : ℤ) : Option CriteriaDrift :=
  if old_set.raw_hash = new_set.raw_hash then none
  else
    some { program := new_set.program
           detected_at := now
           changes := diff_criteria old_set new_set
           impact_on_you := classify_drift_impact before after }

/-- `ConflictType` from src/optimizer/mod.rs. -/
inductive ConflictType
  | DirectContradiction
  | TensionZone
  | IndirectImpact
deriving DecidableEq

/-- `ProgramConflict` from src/optimizer/mod.rs. -/
structure ProgramConflict where
  metric : MetricKey
  program_a : ProgramId
  program_a_wants : Constraint
  program_b : ProgramId
  program_b_wants : Constraint
  conflict_type : ConflictType
  recommendation : String
deriving DecidableEq

/-- `MetricConstraintRef` from src/optimizer/conflicts.rs. -/
structure MetricConstraintRef where
  program : ProgramId
  metric : MetricKey
  constraint : Constraint
deriving DecidableEq

/-- The `Display` impl of `ProgramId` in src/criteria/schema.rs. -/
def ProgramId.display : ProgramId → String
  | .Sfdp => "SFDP"
  | .Marinade => "Marinade"
  | .JPool => "JPool"
  | .BlazeStake => "BlazeStake"
  | .Jito => "Jito"
  | .Sanctum => "Sanctum"

/-- The `Display` impl of `MetricKey` in src/criteria/schema.rs. -/
def MetricKey.display : MetricKey → String
  | .Commission => "commission"
  | .ActivatedStake => "activated_stake"
  | .SkipRate => "skip_rate"
  | .VoteCredits => "vote_credits"
  | .UptimePercent => "uptime_percent"
  | .SolanaVersion => "solana_version"
  | .DatacenterConcentration => "datacenter_concentration"
  | .SuperminorityStatus => "superminority_status"
  | .MevCommission => "mev_commission"
  | .StakeConcentration => "stake_concentration"
  | .InfrastructureDiversity => "infrastructure_diversity"
  | .Custom name => name

/-- `compare_constraints` from src/optimizer/conflicts.rs.  The Rust
`match` arms early-return; when none fires, control falls through to the
fee-metric `IndirectImpact` check. -/
def compare_constraints (a b : MetricConstraintRef) : Option ProgramConflict :=
  let build := fun (conflict_type : ConflictType) (recommendation : String) =>
    ({ metric := a.metric, program_a := a.program, program_a_wants := a.constraint,
       program_b := b.program, program_b_wants := b.constraint,
       conflict_type := conflict_type, recommendation := recommendation } :
      ProgramConflict)
  let min_max_case := fun (min max : ℚ) =>
    if min > max then
      some (build .DirectContradiction
        (a.program.display ++ " requires >= " ++ fmtQ min ++ ", but " ++
         b.program.display ++ " requires <= " ++ fmtQ max ++
         ". Prioritize program ROI and pick one target."))
    else if max - min ≤ (Max.max |min| 1) * (1/10) then
      some (build .TensionZone
        ("Constraint window is narrow (" ++ fmtQ min ++ ".." ++ fmtQ max ++
         "). Introduce monitoring guardrails before changing " ++
         a.metric.display ++ "."))
    else none
  let structural : Option ProgramConflict :=
    match a.constraint, b.constraint with
    | .Min min, .Max max => min_max_case min max
    | .Max max, .Min min => min_max_case min max
    | .Range a_min a_max, .Range b_min b_max =>
      let overlap_min := Max.max a_min b_min
      let overlap_max := Min.min a_max b_max
      if overlap_min > overlap_max then
        some (build .DirectContradiction
          "No overlapping range between programs for this metric.")
      else if overlap_max - overlap_min ≤
          (Min.min |a_max - a_min| |b_max - b_min|) * (1/5) then
        some (build .TensionZone
          ("Shared feasible range is tight: [" ++ fmtQ overlap_min ++ ", " ++
           fmtQ overlap_max ++ "]"))
      else none
    | _, _ => none
  match structural with
  | some conflict => some conflict
  | none =>
    match a.metric with
    | .Commission | .MevCommission =>
      some (build .IndirectImpact
        ("Lower " ++ a.metric.display ++
         " may improve eligibility but can reduce validator revenue; model infra budget impact."))
    | _ => none

/-- The flat `(program, metric, constraint)` list `detect_conflicts`
builds over all criteria sets. -/
def constraint_refs (criteria_sets : List CriteriaSet) : List MetricConstraintRef :=
  (criteria_sets.map fun set =>
    set.criteria.map fun criterion =>
      ({ program := set.program, metric := criterion.metric,
         constraint := criterion.constraint } : MetricConstraintRef)).flatten

/-- All index pairs `i < j` of a list, in the order the Rust double loop
visits them. -/
def orderedPairs : List α → List (α × α)
  | [] => []
  | x :: rest => rest.map (fun y => (x, y)) ++ orderedPairs rest

/-- `detect_conflicts` from src/optimizer/conflicts.rs. -/
def detect_conflicts (criteria_sets : List CriteriaSet) : List ProgramConflict :=
  (orderedPairs (constraint_refs criteria_sets)).filterMap fun p =>
    if p.1.metric ≠ p.2.metric ∨ p.1.program = p.2.program then none
    else compare_constraints p.1 p.2

/-- `ArbitrageOpportunity` from src/eligibility/mod.rs. -/
structure ArbitrageOpportunity where
  program : ProgramId
  current_eligible : Bool
  gaps : List GapDetail
  total_effort : EffortLevel
  estimated_delegation_gain_sol : ℚ
  roi_score : ℚ
deriving DecidableEq

/-- `gaps.iter().map(effort).max().unwrap_or(Impossible)`: the maximum
effort level in the derived `Ord` order, `Impossible` for an empty list. -/
def effort_max : List EffortLevel → EffortLevel
  | [] => .Impossible
  | e :: rest => rest.foldl (fun acc x => if acc.rank < x.rank then x else acc) e

/-- Association-list model of the `BTreeMap<ProgramId, f64>` of gain
estimates passed to `build_arbitrage_opportunities`. -/
def lookupProgram : List (ProgramId × ℚ) → ProgramId → Option ℚ
  | [], _ => none
  | (k, v) :: rest, p => if k = p then some v else lookupProgram rest p

/-- The descending-ROI order used by the arbitrage sort:
`roiGE a b` holds when `a`'s ROI score is at least `b`'s.  It models
`b.roi_score.total_cmp(&a.roi_score)`, which is a total order on `f64`;
on `ℚ` the standard order is already total. -/
def roiGE (a b : ArbitrageOpportunity) : Prop :=
  b.roi_score ≤ a.roi_score

instance : DecidableRel roiGE := fun a b =>
  inferInstanceAs (Decidable (b.roi_score ≤ a.roi_score))

instance : IsTotal ArbitrageOpportunity roiGE :=
  ⟨fun a b => le_total b.roi_score a.roi_score⟩

instance : IsTrans ArbitrageOpportunity roiGE :=
  ⟨fun _ _ _ h1 h2 => le_trans h2 h1⟩

/-- `build_arbitrage_opportunities` from src/eligibility/arbitrage.rs.
Rust's `sort_by` is a stable sort under the given comparator; it is
modelled by the stable `List.insertionSort` under the same total order. -/
def build_arbitrage_opportunities (results : List EligibilityResult)
    (estimate_by_program : List (ProgramId × ℚ)) : List ArbitrageOpportunity :=
  let opportunities := results.filterMap fun result =>
    if result.eligible then none
    else
      let gaps := result.criterion_results.filterMap (·.gap)
      if gaps.isEmpty then none
      else
        let total_effort := effort_max (gaps.map (·.effort_estimate))
        let estimated_delegation_gain_sol :=
          ((lookupProgram estimate_by_program result.program).or
            result.estimated_delegation_sol).getD 0
        some { program := result.program
               current_eligible := result.eligible
               gaps := gaps
               total_effort := total_effort
               estimated_delegation_gain_sol := estimated_delegation_gain_sol
               roi_score :=
                 if total_effort.score > 0 then
                   estimated_delegation_gain_sol / total_effort.score
                 else 0 }
  opportunities.insertionSort roiGE

/-- `MetricChange` from src/optimizer/mod.rs.  The Rust field is named
`from`, which Lean reserves. -/
structure MetricChange where
  metric : MetricKey
  from_value : ℚ
  to_value : ℚ
deriving DecidableEq

/-- A program adapter as the what-if simulator sees it: its identity, the
criteria set its `fetch_criteria` returns for this simulation, and its
`estimate_delegation` heuristic (opaque to the core). -/
structure Program where
  id : ProgramId
  criteria : CriteriaSet
  estimate : ValidatorMetrics → CriteriaSet → Option ℚ

/-- `DelegationProgram::evaluate`: every adapter delegates to
`evaluate_validator` with its own delegation estimate. -/
def Program.evaluate (p : Program) (validator : ValidatorMetrics)
    (criteria : CriteriaSet) : EligibilityResult :=
  evaluate_validator p.id validator criteria (p.estimate validator criteria)

/-- `WhatIfResult` from src/optimizer/mod.rs. -/
structure WhatIfResult where
  changes_applied : List MetricChange
  before : List EligibilityResult
  after : List EligibilityResult
  programs_gained : List ProgramId
  programs_lost : List ProgramId
  net_delegation_change_sol : ℚ

/-- `evaluate_all_programs` from src/optimizer/whatif.rs: evaluate every
registry program passing the filter against its fetched criteria. -/
def evaluate_all_programs (registry : List Program) (validator : ValidatorMetrics)
    (filter : Option (List ProgramId)) : List EligibilityResult :=
  (registry.filter fun p =>
    match filter with
    | some ids => ids.any (fun i => decide (i = p.id))
    | none => true).map fun p => p.evaluate validator p.criteria

/-- One iteration of the change-application loop in `simulate_whatif`
(src/optimizer/whatif.rs lines 37-47). -/
def whatif_apply_step (acc : ValidatorMetrics × List MetricChange)
    (change : MetricKey × ℚ) : ValidatorMetrics × List MetricChange :=
  match acc.1.numeric_metric change.1 with
  | some from_v =>
    let applied := acc.1.apply_numeric_change change.1 change.2
    if applied.2 then
      (applied.1, acc.2 ++ [{ metric := change.1, from_value := from_v,
                              to_value := change.2 }])
    else (applied.1, acc.2)
  | none => acc

/-- The clone-and-apply phase of `simulate_whatif`: fold the requested
changes over a copy of the metrics, collecting `changes_applied`. -/
def whatif_apply (metrics : ValidatorMetrics)
    (target_changes : List (MetricKey × ℚ)) : ValidatorMetrics × List MetricChange :=
  target_changes.foldl whatif_apply_step (metrics, [])

/-- `gained_programs` from src/optimizer/whatif.rs. -/
def gained_programs (before after : List EligibilityResult) : List ProgramId :=
  before.filterMap fun old =>
    match after.find? (fun n => decide (n.program = old.program)) with
    | some new_r =>
      if !old.eligible && new_r.eligible then some new_r.program else none
    | none => none

/-- `lost_programs` from src/optimizer/whatif.rs. -/
def lost_programs (before after : List EligibilityResult) : List ProgramId :=
  before.filterMap fun old =>
    match after.find? (fun n => decide (n.program = old.program)) with
    | some new_r =>
      if old.eligible && !new_r.eligible then some new_r.program else none
    | none => none

/-- `delegation_sum` from src/optimizer/whatif.rs. -/
def delegation_sum (results : List EligibilityResult) : ℚ :=
  (results.filterMap (·.estimated_delegation_sol)).sum

/-- `simulate_whatif` from src/optimizer/whatif.rs.  The criteria each
program would fetch are carried inside `registry`, so both evaluation
passes see the same criteria per program (the deterministic reading of
the two `fetch_criteria` awaits). -/
def simulate_whatif (registry : List Program) (current_metrics : ValidatorMetrics)
    (target_changes : List (MetricKey × ℚ)) (filter : Option (List ProgramId)) :
    WhatIfResult :=
  let before := evaluate_all_programs registry current_metrics filter
  let applied := whatif_apply current_metrics target_changes
  let after := evaluate_all_programs registry applied.1 filter
  { changes_applied := applied.2
    before := before
    after := after
    programs_gained := gained_programs before after
    programs_lost := lost_programs before after
    net_delegation_change_sol := delegation_sum after - delegation_sum before }

/-- A criterion check that passes computes no gap
(every `(true, ...)` arm of `constraint_check` carries `none`). -/
theorem constraint_check_gap_none_of_passed (metric : MetricKey)
    (your_value : MetricValue) (constraint : Constraint)
    (h : (constraint_check metric your_value constraint).1 = true) :
    (constraint_check metric your_value constraint).2 = none := by
  unfold constraint_check at *
  cases your_value <;> cases constraint <;>
    simp_all <;> split_ifs at * <;> simp_all

/-- `evaluate_criterion` only attaches a gap to a failed criterion. -/
theorem evaluate_criterion_gap_none_of_passed (validator : ValidatorMetrics)
    (criterion : Criterion)
    (h : (evaluate_criterion validator criterion).passed = true) :
    (evaluate_criterion validator criterion).gap = none := by
  have := constraint_check_gap_none_of_passed criterion.metric
    ((validator.metric_value criterion.metric).getD (.Text "unknown"))
    criterion.constraint
  simpa [evaluate_criterion] using this (by simpa [evaluate_criterion] using h)

/-- C1: in every `EligibilityResult` returned by `evaluate_validator`,
`eligible` is `true` exactly when every `CriterionResult` in
`criterion_results` has `passed = true`; the characterization holds for
every input, so the weighted score (whether `1.0`, `0.0` or absent)
never changes the `eligible` flag. -/
theorem evaluate_validator_eligible_iff_all_passed
    (program : ProgramId) (validator : ValidatorMetrics)
    (criteria_set : CriteriaSet) (estimated : Option ℚ) :
    (evaluate_validator program validator criteria_set estimated).eligible = true ↔
      ∀ r ∈ (evaluate_validator program validator criteria_set estimated).criterion_results,
        r.passed = true := by
  simp [evaluate_validator, List.all_eq_true]

/-- C2 counterexample: with the sample metrics (whose `custom_numeric`
map is empty) and a criterion on the unset metric `Custom
"external_score"` with the non-Custom constraint `Min 0`, the
participant's value is `Numeric 0`, not the sentinel `Text "unknown"`,
and the criterion passes rather than fails. -/
theorem custom_metric_unset_passes_min_zero :
    (evaluate_criterion (sample_metrics "you")
        { name := "custom gate", metric := .Custom "external_score",
          constraint := .Min 0, weight := none, description := "" }).passed = true ∧
    (evaluate_criterion (sample_metrics "you")
        { name := "custom gate", metric := .Custom "external_score",
          constraint := .Min 0, weight := none, description := "" }).your_value =
      .Numeric 0 := by
  constructor <;>
    norm_num [evaluate_criterion, sample_metrics,
      ValidatorMetrics.metric_value, mapLookup, constraint_check]

/-- C2 (amended): `ValidatorMetrics::metric_value` resolves every
`MetricKey` to `Some` value — a `Custom` name absent from
`custom_numeric` resolves to `Numeric(0.0)` — so `evaluate_criterion`'s
`Text("unknown")` sentinel branch is never taken and the criterion is
judged on the resolved value. -/
theorem metric_value_total_no_sentinel :
    (∀ (validator : ValidatorMetrics) (criterion : Criterion),
        validator.metric_value criterion.metric =
          some (evaluate_criterion validator criterion).your_value) ∧
    (∀ (validator : ValidatorMetrics) (name : String),
        validator.metric_value (.Custom name) =
          some (.Numeric ((mapLookup validator.custom_numeric name).getD 0))) := by
  constructor
  · intro v c
    simp [evaluate_criterion, ValidatorMetrics.metric_value]
  · intro v name
    simp [ValidatorMetrics.metric_value]

/-- A count of passing criteria falls short of the total exactly when
some criterion fails. -/
theorem countP_lt_length_iff_exists_false {α : Type} (l : List α) (p : α → Bool) :
    l.countP p < l.length ↔ ∃ a ∈ l, p a = false := by
  constructor
  · intro h
    have hne : l.countP p ≠ l.length := Nat.ne_of_lt h
    rw [Ne, List.countP_eq_length] at hne
    push_neg at hne
    obtain ⟨a, ha, hp⟩ := hne
    exact ⟨a, ha, by simpa using hp⟩
  · rintro ⟨a, ha, hp⟩
    refine lt_of_le_of_ne (List.countP_le_length p) ?_
    rw [Ne, List.countP_eq_length]
    intro hall
    have := hall a ha
    simp [hp] at this

/-- `failed_count` is positive exactly when some criterion result failed. -/
theorem failed_count_pos_iff (r : EligibilityResult) :
    0 < r.failed_count ↔ ∃ c ∈ r.criterion_results, c.passed = false := by
  unfold EligibilityResult.failed_count EligibilityResult.passed_count
  rw [tsub_pos_iff_lt]
  exact countP_lt_length_iff_exists_false _ _

/-- `marginal_count` is positive exactly when some collected gap has a
nonzero required value and relative distance within the ratio. -/
theorem marginal_count_pos_iff (r : EligibilityResult) (epsilon_ratio : ℚ) :
    0 < r.marginal_count epsilon_ratio ↔
      ∃ g ∈ r.criterion_results.filterMap (fun c => c.gap),
        g.required_value ≠ 0 ∧ |g.delta| / |g.required_value| ≤ epsilon_ratio := by
  unfold EligibilityResult.marginal_count
  rw [List.length_pos_iff_exists_mem]
  constructor
  · rintro ⟨g, hg⟩
    rw [List.mem_filter] at hg
    obtain ⟨hgm, hpred⟩ := hg
    by_cases h0 : g.required_value = 0
    · simp [h0] at hpred
    · refine ⟨g, hgm, h0, ?_⟩
      simpa [h0] using hpred
  · rintro ⟨g, hgm, h0, hle⟩
    exact ⟨g, List.mem_filter.mpr ⟨hgm, by simp [h0, hle]⟩⟩

/-- C3 spec-side definition: the drift-impact table exactly as the spec
words it — either snapshot absent gives `NotApplicable`; otherwise the
pair of eligibility booleans selects the variant, with `(true, true)`
split into `AtRisk` when the after-result has a failed criterion or a gap
at relative distance at most `0.03` (a gap's relative distance
`|delta| / |required|` is only defined for a nonzero required value), and
`StillEligible` otherwise. -/
def spec_drift_impact (before after : Option EligibilityResult) : DriftImpact :=
  match before, after with
  | some b, some a =>
    match b.eligible, a.eligible with
    | false, true => .NowEligible
    | true, false => .NowIneligible
    | false, false => .NotApplicable
    | true, true =>
      if (∃ c ∈ a.criterion_results, c.passed = false) ∨
         (∃ g ∈ a.criterion_results.filterMap (fun c => c.gap),
            g.required_value ≠ 0 ∧ |g.delta| / |g.required_value| ≤ 3/100) then
        .AtRisk
      else .StillEligible
  | _, _ => .NotApplicable

/-- C3: `classify_drift_impact` is total and agrees with the spec's fixed
table on every input: absent snapshots give `NotApplicable`;
`(false,true) ↦ NowEligible`, `(true,false) ↦ NowIneligible`,
`(false,false) ↦ NotApplicable`, and `(true,true)` gives `AtRisk` exactly
when the after-result has a failed criterion or a gap within the `0.03`
relative margin, else `StillEligible`. -/
theorem classify_drift_impact_matches_table (before after : Option EligibilityResult) :
    classify_drift_impact before after = spec_drift_impact before after := by
  unfold classify_drift_impact spec_drift_impact
  cases before with
  | none => cases after <;> rfl
  | some b =>
    cases after with
    | none => rfl
    | some a =>
      have hiff : (a.failed_count > 0 ∨ a.marginal_count (3/100) > 0) ↔
          ((∃ c ∈ a.criterion_results, c.passed = false) ∨
           (∃ g ∈ a.criterion_results.filterMap (fun c => c.gap),
              g.required_value ≠ 0 ∧ |g.delta| / |g.required_value| ≤ 3/100)) :=
        or_congr (failed_count_pos_iff a) (marginal_count_pos_iff a (3/100))
      cases hb : b.eligible <;> cases ha : a.eligible <;>
        simp only [hb, ha] <;>
        first
        | rfl
        | exact if_congr hiff rfl rfl

/-- An eligible evaluator output has no failed criteria and no gaps, so
both of `classify_drift_impact`'s `AtRisk` triggers are zero. -/
theorem evaluate_validator_eligible_counts (p : ProgramId) (v : ValidatorMetrics)
    (cs : CriteriaSet) (e : Option ℚ)
    (h : (evaluate_validator p v cs e).eligible = true) :
    (evaluate_validator p v cs e).failed_count = 0 ∧
      ∀ epsilon_ratio, (evaluate_validator p v cs e).marginal_count epsilon_ratio = 0 := by
  have hall : ∀ r ∈ (evaluate_validator p v cs e).criterion_results, r.passed = true := by
    simp only [evaluate_validator, List.all_eq_true] at h ⊢
    exact fun r hr => h r hr
  constructor
  · unfold EligibilityResult.failed_count EligibilityResult.passed_count
    have hcount :
        (evaluate_validator p v cs e).criterion_results.countP (·.passed) =
          (evaluate_validator p v cs e).criterion_results.length :=
      List.countP_eq_length.mpr fun a ha => by simpa using hall a ha
    simp [hcount]
  · intro epsilon_ratio
    unfold EligibilityResult.marginal_count
    have hnil :
        (evaluate_validator p v cs e).criterion_results.filterMap (·.gap) = [] := by
      rw [List.filterMap_eq_nil_iff]
      intro c hc
      have hcp := hall c hc
      simp only [evaluate_validator, List.mem_map] at hc
      obtain ⟨crit, _, rfl⟩ := hc
      exact evaluate_criterion_gap_none_of_passed v crit hcp
    simp [hnil]

/-- C4: for two results both produced by `evaluate_validator`,
`classify_drift_impact` follows the pure 2×2 eligibility table with the
`(true, true)` case always `StillEligible` — in particular it never
returns `AtRisk`, because an evaluator output carries a gap only on a
failed criterion, so an eligible after-result has zero failed criteria
and zero gaps. -/
theorem classify_evaluated_results_never_at_risk
    (p1 p2 : ProgramId) (v1 v2 : ValidatorMetrics) (cs1 cs2 : CriteriaSet)
    (e1 e2 : Option ℚ) :
    classify_drift_impact (some (evaluate_validator p1 v1 cs1 e1))
        (some (evaluate_validator p2 v2 cs2 e2)) =
      (match (evaluate_validator p1 v1 cs1 e1).eligible,
             (evaluate_validator p2 v2 cs2 e2).eligible with
       | false, true => .NowEligible
       | true, true => .StillEligible
       | true, false => .NowIneligible
       | false, false => .NotApplicable) := by
  unfold classify_drift_impact
  cases hb : (evaluate_validator p1 v1 cs1 e1).eligible <;>
    cases ha : (evaluate_validator p2 v2 cs2 e2).eligible <;>
      simp only [hb, ha] <;> try rfl
  obtain ⟨hf, hm⟩ := evaluate_validator_eligible_counts p2 v2 cs2 e2 ha
  simp [hf, hm]

/-- A one-criterion criteria set, used to state the conflict and diff
claims over concrete set shapes. -/
def single_set (program : ProgramId) (c : Criterion) : CriteriaSet :=
  { program := program, fetched_at := 0, source_url := "src", criteria := [c],
    raw_hash := "hash" }

/-- A criterion demanding `Min m` on `metric`. -/
def min_criterion (metric : MetricKey) (m : ℚ) : Criterion :=
  { name := "min bound", metric := metric, constraint := .Min m,
    weight := none, description := "" }

/-- A criterion demanding `Max M` on `metric`. -/
def max_criterion (metric : MetricKey) (M : ℚ) : Criterion :=
  { name := "max bound", metric := metric, constraint := .Max M,
    weight := none, description := "" }

/-- `detect_conflicts` over two one-criterion sets reduces to the single
cross-program comparison. -/
theorem detect_conflicts_two_singleton (pA pB : ProgramId) (cA cB : Criterion) :
    detect_conflicts [single_set pA cA, single_set pB cB] =
      if cA.metric ≠ cB.metric ∨ pA = pB then []
      else (compare_constraints
              { program := pA, metric := cA.metric, constraint := cA.constraint }
              { program := pB, metric := cB.metric, constraint := cB.constraint }).toList := by
  show List.filterMap
      (fun p : MetricConstraintRef × MetricConstraintRef =>
        if p.1.metric ≠ p.2.metric ∨ p.1.program = p.2.program then none
        else compare_constraints p.1 p.2)
      [(⟨pA, cA.metric, cA.constraint⟩, ⟨pB, cB.metric, cB.constraint⟩)] = _
  rw [List.filterMap_cons, List.filterMap_nil]
  by_cases h : cA.metric ≠ cB.metric ∨ pA = pB
  · rw [if_pos h, if_pos h]
  · rw [if_neg h, if_neg h]
    cases hc : compare_constraints
        { program := pA, metric := cA.metric, constraint := cA.constraint }
        { program := pB, metric := cB.metric, constraint := cB.constraint } <;>
      simp [hc]

/-- The conflict type `compare_constraints` assigns to a `Min m` vs
`Max M` pair of refs on the same metric, in that order. -/
theorem compare_constraints_min_max_type (pA pB : ProgramId) (k : MetricKey) (m M : ℚ) :
    (compare_constraints
        { program := pA, metric := k, constraint := .Min m }
        { program := pB, metric := k, constraint := .Max M }).map (·.conflict_type) =
      if m > M then some .DirectContradiction
      else if M - m ≤ (Max.max |m| 1) * (1/10) then some .TensionZone
      else
        match k with
        | .Commission | .MevCommission => some .IndirectImpact
        | _ => none := by
  simp only [compare_constraints]
  split_ifs with h1 h2 <;>
    first
    | rfl
    | (cases k <;> rfl)

/-- The conflict type `compare_constraints` assigns to a `Max M` vs
`Min m` pair of refs on the same metric (the swapped Rust or-pattern arm
binds the same `min`/`max` values). -/
theorem compare_constraints_max_min_type (pA pB : ProgramId) (k : MetricKey) (m M : ℚ) :
    (compare_constraints
        { program := pA, metric := k, constraint := .Max M }
        { program := pB, metric := k, constraint := .Min m }).map (·.conflict_type) =
      if m > M then some .DirectContradiction
      else if M - m ≤ (Max.max |m| 1) * (1/10) then some .TensionZone
      else
        match k with
        | .Commission | .MevCommission => some .IndirectImpact
        | _ => none := by
  simp only [compare_constraints]
  split_ifs with h1 h2 <;>
    first
    | rfl
    | (cases k <;> rfl)

/-- Membership in an `Option.toList` with a projection constraint is the
projected `Option.map` equation. -/
theorem exists_conflict_type_in_toList (o : Option ProgramConflict) (ct : ConflictType) :
    (∃ c ∈ o.toList, c.conflict_type = ct) ↔ o.map (·.conflict_type) = some ct := by
  cases o <;> simp

/-- A projected `Option.map` equation transfers to the `toList` image. -/
theorem toList_map_conflict_type (o : Option ProgramConflict) (ct : ConflictType)
    (h : o.map (·.conflict_type) = some ct) :
    o.toList.map (·.conflict_type) = [ct] := by
  cases o <;> simp_all

/-- C5 counterexample: programs `Sfdp` and `Marinade` constrain
`StakeConcentration` with `Min(0.5)` and `Max(0.56)`.  The window `0.06`
exceeds 10% of `min`'s magnitude (`0.05`) and `min ≤ max`, so by the
claim's table no conflict should be emitted — yet `detect_conflicts`
emits exactly one `TensionZone` conflict (the code compares the window
against 10% of `max(|min|, 1.0)`, not of `|min|`). -/
theorem tension_zone_beyond_min_magnitude :
    (detect_conflicts
        [single_set .Sfdp (min_criterion .StakeConcentration (1/2)),
         single_set .Marinade (max_criterion .StakeConcentration (14/25))]).map
        (·.conflict_type) = [.TensionZone] ∧
    ¬ ((14/25 : ℚ) - 1/2 ≤ |(1/2 : ℚ)| * (10/100)) ∧
    ¬ ((1/2 : ℚ) > 14/25) := by
  refine ⟨?_, by rw [abs_of_nonneg] <;> norm_num, by norm_num⟩
  rw [detect_conflicts_two_singleton,
    if_neg (by simp [min_criterion, max_criterion])]
  simp only [min_criterion, max_criterion]
  apply toList_map_conflict_type
  rw [compare_constraints_min_max_type]
  rw [if_neg (by norm_num), if_pos]
  rw [abs_of_nonneg (by norm_num)]
  rw [max_eq_right (by norm_num)]
  norm_num

/-- C5 (amended): for two one-criterion programs constraining the same
metric with `Min m` and `Max M` (in either order), `detect_conflicts`
emits a `DirectContradiction` exactly when `m > M`, and a `TensionZone`
exactly when `m ≤ M` and the window `M - m` is at most 10% of
`max(|m|, 1.0)` (the code widens the 10%-of-`|m|` base to at least 1.0). -/
theorem min_max_conflict_classification (metric : MetricKey) (m M : ℚ) :
    ((∃ c ∈ detect_conflicts
          [single_set .Sfdp (min_criterion metric m),
           single_set .Marinade (max_criterion metric M)],
        c.conflict_type = .DirectContradiction) ↔ m > M) ∧
    ((∃ c ∈ detect_conflicts
          [single_set .Sfdp (min_criterion metric m),
           single_set .Marinade (max_criterion metric M)],
        c.conflict_type = .TensionZone) ↔
      ¬ m > M ∧ M - m ≤ (Max.max |m| 1) * (1/10)) ∧
    ((∃ c ∈ detect_conflicts
          [single_set .Marinade (max_criterion metric M),
           single_set .Sfdp (min_criterion metric m)],
        c.conflict_type = .DirectContradiction) ↔ m > M) ∧
    ((∃ c ∈ detect_conflicts
          [single_set .Marinade (max_criterion metric M),
           single_set .Sfdp (min_criterion metric m)],
        c.conflict_type = .TensionZone) ↔
      ¬ m > M ∧ M - m ≤ (Max.max |m| 1) * (1/10)) := by
  have hd1 := detect_conflicts_two_singleton .Sfdp .Marinade
    (min_criterion metric m) (max_criterion metric M)
  have hd2 := detect_conflicts_two_singleton .Marinade .Sfdp
    (max_criterion metric M) (min_criterion metric m)
  rw [if_neg (by simp [min_criterion, max_criterion])] at hd1
  rw [if_neg (by simp [min_criterion, max_criterion])] at hd2
  have hc1 := compare_constraints_min_max_type .Sfdp .Marinade metric m M
  have hc2 := compare_constraints_max_min_type .Marinade .Sfdp metric m M
  refine ⟨?_, ?_, ?_, ?_⟩
  · rw [hd1, exists_conflict_type_in_toList]
    simp only [min_criterion, max_criterion]
    rw [hc1]
    split_ifs with h1 h2
    · simp [h1]
    · simp [h1]
    · cases metric <;> simp [h1]
  · rw [hd1, exists_conflict_type_in_toList]
    simp only [min_criterion, max_criterion]
    rw [hc1]
    split_ifs with h1 h2
    · simp [h1]
    · simp [h1, h2]
      linarith
    · cases metric <;> simp [h1, h2] <;> linarith
  · rw [hd2, exists_conflict_type_in_toList]
    simp only [min_criterion, max_criterion]
    rw [hc2]
    split_ifs with h1 h2
    · simp [h1]
    · simp [h1]
    · cases metric <;> simp [h1]
  · rw [hd2, exists_conflict_type_in_toList]
    simp only [min_criterion, max_criterion]
    rw [hc2]
    split_ifs with h1 h2
    · simp [h1]
    · simp [h1, h2]
      linarith
    · cases metric <;> simp [h1, h2] <;> linarith

/-- `diff_criteria` over two one-criterion sets sharing the name "crit":
the three independent field checks, concatenated. -/
theorem diff_criteria_single_shared_name (p1 p2 : ProgramId) (k1 k2 : MetricKey)
    (con1 con2 : Constraint) (w1 w2 : Option ℚ) (d1 d2 : String) :
    diff_criteria
        (single_set p1 ⟨"crit", k1, con1, w1, d1⟩)
        (single_set p2 ⟨"crit", k2, con2, w2, d2⟩) =
      (if con1 ≠ con2 then
        [⟨"crit", .ThresholdChanged, some (format_constraint con1),
          some (format_constraint con2)⟩]
       else []) ++
      (if w1 ≠ w2 then
        [⟨"crit", .WeightChanged, w1.map format_weight_4dp,
          w2.map format_weight_4dp⟩]
       else []) ++
      (if d1 ≠ d2 then
        [⟨"crit", .DescriptionChanged, some d1, some d2⟩]
       else []) := by
  have hnames : sortedNames
      (single_set p1 ⟨"crit", k1, con1, w1, d1⟩)
      (single_set p2 ⟨"crit", k2, con2, w2, d2⟩) = ["crit"] := by
    simp [sortedNames, single_set, insertName]
  unfold diff_criteria
  rw [hnames]
  simp only [List.map_cons, List.map_nil, List.flatten_cons, List.flatten_nil,
    List.append_nil]
  unfold diffName
  simp [single_set, lookupName]

/-- C6 counterexample: two criteria sets identical except for weights
`0.00001` and `0.00002`.  Both weights render as `0.0000` at 4 decimal
places (the rounded scaled values agree), so by the claim no
`WeightChanged` entry should be produced — yet `diff_criteria` emits
exactly one, because the code compares the `Option<f64>` weights for
exact inequality and uses the 4-decimal rendering only for display. -/
theorem weight_changed_below_4dp_resolution :
    (round ((1/100000 : ℚ) * 10000) : ℤ) = round ((2/100000 : ℚ) * 10000) ∧
    (diff_criteria
        (single_set .Sfdp ⟨"crit", .Commission, .Max 10, some (1/100000), "d"⟩)
        (single_set .Sfdp ⟨"crit", .Commission, .Max 10, some (2/100000), "d"⟩)).map
      (·.change_type) = [.WeightChanged] := by
  constructor
  · norm_num [round_eq]
  · rw [diff_criteria_single_shared_name]
    rw [if_neg (by norm_num), if_pos (by norm_num), if_neg (by norm_num)]
    simp

/-- C6 (amended): for a criterion name present in both sets,
`diff_criteria` emits a `WeightChanged` change exactly when the two
`Option` weights differ under exact numeric equality (the 4-decimal
formatting only renders the displayed old/new values), independently of
the threshold and description checks. -/
theorem weight_changed_iff_weights_differ (k1 k2 : MetricKey)
    (con1 con2 : Constraint) (w1 w2 : Option ℚ) (d1 d2 : String) :
    (∃ ch ∈ diff_criteria
          (single_set .Sfdp ⟨"crit", k1, con1, w1, d1⟩)
          (single_set .Sfdp ⟨"crit", k2, con2, w2, d2⟩),
        ch.change_type = .WeightChanged) ↔ w1 ≠ w2 := by
  rw [diff_criteria_single_shared_name]
  constructor
  · rintro ⟨ch, hmem, htype⟩
    intro hw
    rw [hw] at hmem
    simp only [ne_eq, not_true_eq_false, if_false, List.append_nil] at hmem
    split_ifs at hmem with hcon hdesc <;> simp_all
    rcases hmem with rfl | rfl <;> simp_all
  · intro hw
    refine ⟨⟨"crit", .WeightChanged, w1.map format_weight_4dp,
      w2.map format_weight_4dp⟩, ?_, rfl⟩
    simp [hw]

/-- Diffing a set against itself emits nothing for any name. -/
theorem diffName_self (A : CriteriaSet) (n : String) : diffName A A n = [] := by
  unfold diffName
  cases h : lookupName A.criteria n <;> simp [h]

/-- C7: `diff_criteria(A, A)` is empty for every criteria set `A`, and
`build_drift_report` returns `None` whenever the two sets' content
hashes agree, regardless of the eligibility snapshots and timestamp. -/
theorem diff_self_nil_and_equal_hash_no_report :
    (∀ A : CriteriaSet, diff_criteria A A = []) ∧
    (∀ (old_set new_set : CriteriaSet) (before after : Option EligibilityResult)
        (now : ℤ), old_set.raw_hash = new_set.raw_hash →
          build_drift_report old_set new_set before after now = none) := by
  constructor
  · intro A
    unfold diff_criteria
    rw [List.flatten_eq_nil_iff]
    intro l hl
    simp only [List.mem_map] at hl
    obtain ⟨n, _, rfl⟩ := hl
    exact diffName_self A n
  · intro old_set new_set before after now h
    unfold build_drift_report
    rw [if_pos h]

/-- C7 witness: a concrete one-criterion set diffed against itself. -/
theorem diff_self_nil_and_equal_hash_no_report_witness :
    diff_criteria (single_set .Sfdp ⟨"crit", .Commission, .Max 7, none, ""⟩)
        (single_set .Sfdp ⟨"crit", .Commission, .Max 7, none, ""⟩) = [] ∧
    build_drift_report (single_set .Sfdp ⟨"crit", .Commission, .Max 7, none, ""⟩)
        (single_set .Sfdp ⟨"crit", .Commission, .Max 7, none, ""⟩) none none 0 = none :=
  ⟨diff_self_nil_and_equal_hash_no_report.1 _,
   diff_self_nil_and_equal_hash_no_report.2 _ _ none none 0 rfl⟩

/-- C8: the arbitrage list is sorted descending by `roi_score` under the
total order `roiGE` (the `ℚ` image of the NaN-safe `total_cmp`), and any
listed opportunity whose total effort had cost 0 would have
`roi_score = 0` — here every effort cost is nonzero, so the left
disjunct always holds. -/
theorem arbitrage_sorted_descending_and_zero_effort_zero_roi
    (results : List EligibilityResult) (estimate_by_program : List (ProgramId × ℚ)) :
    List.Sorted roiGE (build_arbitrage_opportunities results estimate_by_program) ∧
    ∀ o ∈ build_arbitrage_opportunities results estimate_by_program,
      o.total_effort.score ≠ 0 ∨ o.roi_score = 0 := by
  constructor
  · unfold build_arbitrage_opportunities
    exact List.sorted_insertionSort roiGE _
  · intro o _
    left
    cases h : o.total_effort <;> norm_num [h, EffortLevel.score]

/-- A concrete ineligible evaluation result with one numeric gap, used as
the C8 witness input. -/
def arbitrage_sample_result : EligibilityResult :=
  { program := .Jito, eligible := false, score := some 0,
    criterion_results :=
      [{ criterion_name := "commission cap", metric_key := .Commission,
         your_value := .Numeric 9, required := .Max 7, passed := false,
         gap := some { metric_key := .Commission, current_value := 9,
                       required_value := 7, delta := 2,
                       effort_estimate := .Trivial } }],
    estimated_delegation_sol := none }

/-- The opportunity `build_arbitrage_opportunities` builds from
`arbitrage_sample_result` with no gain estimates. -/
def arbitrage_sample_opportunity : ArbitrageOpportunity :=
  { program := .Jito, current_eligible := false,
    gaps := [{ metric_key := .Commission, current_value := 9,
               required_value := 7, delta := 2, effort_estimate := .Trivial }],
    total_effort := .Trivial, estimated_delegation_gain_sol := 0, roi_score := 0 }

/-- C8 witness: the sorted-output and zero-effort facts at a concrete
one-result input whose single opportunity is listed. -/
theorem arbitrage_sorted_descending_witness :
    List.Sorted roiGE (build_arbitrage_opportunities [arbitrage_sample_result] []) ∧
    (arbitrage_sample_opportunity.total_effort.score ≠ 0 ∨
      arbitrage_sample_opportunity.roi_score = 0) := by
  refine ⟨(arbitrage_sorted_descending_and_zero_effort_zero_roi
      [arbitrage_sample_result] []).1,
    (arbitrage_sorted_descending_and_zero_effort_zero_roi
      [arbitrage_sample_result] []).2 arbitrage_sample_opportunity ?_⟩
  show arbitrage_sample_opportunity ∈
    build_arbitrage_opportunities [arbitrage_sample_result] []
  simp only [build_arbitrage_opportunities, arbitrage_sample_result,
    List.filterMap_cons, List.filterMap_nil, List.isEmpty_cons,
    lookupProgram, effort_max, EffortLevel.score, List.foldl_nil,
    List.map_cons, List.map_nil]
  norm_num [List.insertionSort, List.orderedInsert, arbitrage_sample_opportunity,
    Option.or, effort_max, EffortLevel.score]

/-- C9: `simulate_whatif` with an empty change list evaluates the same
metrics against the same criteria on both passes, so `before` equals
`after` program by program and the net delegation change is zero. -/
theorem whatif_empty_changes_before_eq_after
    (registry : List Program) (current_metrics : ValidatorMetrics)
    (filter : Option (List ProgramId)) :
    (simulate_whatif registry current_metrics [] filter).before =
      (simulate_whatif registry current_metrics [] filter).after ∧
    (simulate_whatif registry current_metrics [] filter).net_delegation_change_sol = 0 :=
  ⟨rfl, sub_self _⟩

/-- Inserting a key into the custom-metric map makes it resolve to the
inserted value. -/
theorem mapLookup_mapInsert_self (l : List (String × ℚ)) (n : String) (v : ℚ) :
    mapLookup (mapInsert l n v) n = some v := by
  induction l with
  | nil => simp [mapInsert, mapLookup]
  | cons hd tl ih =>
    obtain ⟨k, w⟩ := hd
    by_cases h : k = n <;> simp [mapInsert, mapLookup, h, ih]

/-- Inserting a key into the custom-metric map leaves every other key's
resolution unchanged. -/
theorem mapLookup_mapInsert_ne (l : List (String × ℚ)) (n n' : String) (v : ℚ)
    (h : n' ≠ n) :
    mapLookup (mapInsert l n v) n' = mapLookup l n' := by
  have hsym : n ≠ n' := fun hh => h hh.symm
  induction l with
  | nil => simp [mapInsert, mapLookup, hsym]
  | cons hd tl ih =>
    obtain ⟨k, w⟩ := hd
    by_cases hk : k = n
    · subst hk
      simp [mapInsert, mapLookup, hsym]
    · simp [mapInsert, mapLookup, hk, ih]

/-- C10: in `simulate_whatif`'s change-application loop, a requested
change keyed by a text or bool metric (`SolanaVersion` or
`SuperminorityStatus`) is rejected silently — the cloned metrics are
untouched and nothing is recorded — while a change keyed by any numeric
metric is recorded as `{metric, from, to}` with `from` the key's current
numeric reading, makes the key read the target value afterwards, and
leaves the reading of every other metric key unchanged. -/
theorem whatif_single_change_frame (m : ValidatorMetrics) (key : MetricKey)
    (to_value : ℚ) :
    ((key = .SolanaVersion ∨ key = .SuperminorityStatus) →
      whatif_apply m [(key, to_value)] = (m, [])) ∧
    (key ≠ .SolanaVersion → key ≠ .SuperminorityStatus →
      (∃ v, m.numeric_metric key = some v ∧
        (whatif_apply m [(key, to_value)]).2 =
          [{ metric := key, from_value := v, to_value := to_value }]) ∧
      (whatif_apply m [(key, to_value)]).1.numeric_metric key = some to_value ∧
      ∀ other : MetricKey, other ≠ key →
        (whatif_apply m [(key, to_value)]).1.metric_value other =
          m.metric_value other) := by
  cases key
  case SolanaVersion => exact ⟨fun _ => rfl, fun h1 _ => absurd rfl h1⟩
  case SuperminorityStatus => exact ⟨fun _ => rfl, fun _ h2 => absurd rfl h2⟩
  case Custom name =>
    refine ⟨fun h => by rcases h with h | h <;> simp at h, fun _ _ => ?_⟩
    refine ⟨⟨(mapLookup m.custom_numeric name).getD 0, rfl, rfl⟩, ?_, ?_⟩
    · show (ValidatorMetrics.numeric_metric _ (.Custom name)) = _
      simp [whatif_apply, whatif_apply_step, ValidatorMetrics.numeric_metric,
        ValidatorMetrics.metric_value, ValidatorMetrics.apply_numeric_change,
        mapLookup_mapInsert_self]
    · intro other hne
      cases other
      case Custom n' =>
        have hn : n' ≠ name := by simpa using hne
        simp [whatif_apply, whatif_apply_step, ValidatorMetrics.numeric_metric,
          ValidatorMetrics.metric_value, ValidatorMetrics.apply_numeric_change,
          mapLookup_mapInsert_ne _ _ _ _ hn]
      all_goals rfl
  all_goals
    refine ⟨fun h => by rcases h with h | h <;> simp at h, fun _ _ => ?_⟩
    refine ⟨⟨_, rfl, rfl⟩, rfl, ?_⟩
    intro other hne
    cases other <;>
      first
      | exact absurd rfl hne
      | rfl

/-- C10 witness: a `SolanaVersion` change is silently dropped on the
sample metrics, while a `Commission` change to 3 is applied, read back,
and leaves another metric's reading unchanged. -/
theorem whatif_single_change_frame_witness :
    whatif_apply (sample_metrics "w") [(.SolanaVersion, 5)] = (sample_metrics "w", []) ∧
    (whatif_apply (sample_metrics "w") [(.Commission, 3)]).1.numeric_metric
        .Commission = some 3 ∧
    (whatif_apply (sample_metrics "w") [(.Commission, 3)]).1.metric_value
        .SkipRate = (sample_metrics "w").metric_value .SkipRate :=
  ⟨(whatif_single_change_frame (sample_metrics "w") .SolanaVersion 5).1 (Or.inl rfl),
   ((whatif_single_change_frame (sample_metrics "w") .Commission 3).2
      (by decide) (by decide)).2.1,
   ((whatif_single_change_frame (sample_metrics "w") .Commission 3).2
      (by decide) (by decide)).2.2 .SkipRate (by decide)⟩
